import Mathlib

/-!
# Keazy query-to-booking pipeline: shallow embedding and verification

This file embeds the core of the Keazy backend (booking ledger, urgency
classifier, rule-based intent resolution, ML fallback handling, provider
scoring and the orchestrator's progressive fallback broadening) as Lean
definitions, and proves (or refutes) the spec's claims about them.

The persistence store is modelled as lists of documents; Mongo's
`findOneAndUpdate` becomes a first-match conditional update on a list.
Timestamps are naturals; currency/score arithmetic is over `Rat`.
-/

namespace Keazy

/-- Slot lifecycle status, mirroring the `status` enum of the Slot schema. -/
inductive SlotStatus where
  | available
  | booked
  | completed
  | cancelled
  | noShow
deriving DecidableEq, Repr

/-- A slot document (models/slot.js).  Optional fields are `Option`;
`booked_at` is a numeric timestamp. -/
structure Slot where
  slot_id : String
  provider_id : String
  date : String
  time : String
  duration_min : Nat
  service_name : String
  available : Bool
  booked_by : Option String
  booked_at : Option Nat
  booking_notes : Option String
  status : SlotStatus
  created_at : Nat
deriving DecidableEq, Repr

/-- A user document (models/user.js), restricted to the fields the core
reads and writes. -/
structure User where
  user_id : String
  total_queries : Nat
  total_bookings : Nat
  last_query_at : Option Nat
  last_booking_at : Option Nat
deriving DecidableEq, Repr

/-- A provider document (models/provider.js), restricted to the fields used
by scoring, matching and the booking response.  `oid` stands for the Mongo
`_id`; absent string fields are the empty string (matching JS falsiness of
`undefined` and `""` in every use below). -/
structure Provider where
  oid : String
  provider_id : String
  name : String
  service : String
  contact : String
  rating : Rat
  verified : Bool
  available_now : Bool
  response_time_min : Nat
  jobs_completed_30d : Nat
  hourly_rate : Rat
  area : String
  city : String
  state : String
deriving DecidableEq, Repr

/-- Mongo's `findOneAndUpdate` on a collection: update the first document
matching `cond` with `upd`; return the updated document (`new: true`) and
the updated collection.  Returns `none` and the unchanged collection when no
document matches. -/
def findOneAndUpdate {α : Type} (cond : α → Bool) (upd : α → α) :
    List α → Option α × List α
  | [] => (none, [])
  | d :: rest =>
    if cond d then (some (upd d), upd d :: rest)
    else
      let r := findOneAndUpdate cond upd rest
      (r.1, d :: r.2)

/-- Match condition of `SlotSchema.statics.bookSlot`: the slot must have
the requested id, `available: true`, and `status: 'available'`. -/
def bookCond (slotId : String) (s : Slot) : Bool :=
  s.slot_id == slotId && s.available && s.status == SlotStatus.available

/-- Update applied by `bookSlot` on a match. -/
def bookUpdate (userId : String) (notes : Option String) (now : Nat) (s : Slot) : Slot :=
  { s with
    available := false
    booked_by := some userId
    booked_at := some now
    booking_notes := notes
    status := SlotStatus.booked }

/-- `SlotSchema.statics.bookSlot`: atomic conditional booking. -/
def bookSlot (db : List Slot) (slotId userId : String) (notes : Option String)
    (now : Nat) : Option Slot × List Slot :=
  findOneAndUpdate (bookCond slotId) (bookUpdate userId notes now) db

/-- Match condition of `SlotSchema.statics.cancelBooking`: the slot must
have the requested id, `booked_by` equal to the requesting user, and
`status: 'booked'`. -/
def cancelCond (slotId userId : String) (s : Slot) : Bool :=
  s.slot_id == slotId && s.booked_by == some userId && s.status == SlotStatus.booked

/-- Update applied by `cancelBooking` on a match: restore availability and
clear all booking metadata. -/
def cancelUpdate (s : Slot) : Slot :=
  { s with
    available := true
    booked_by := none
    booked_at := none
    booking_notes := none
    status := SlotStatus.available }

/-- `SlotSchema.statics.cancelBooking`: atomic conditional cancellation. -/
def cancelBooking (db : List Slot) (slotId userId : String) : Option Slot × List Slot :=
  findOneAndUpdate (cancelCond slotId userId) cancelUpdate db

/-- `UserSchema.statics.recordBooking`: increment `total_bookings` and set
`last_booking_at` on the matching user (no upsert). -/
def recordBooking (users : List User) (userId : String) (now : Nat) :
    Option User × List User :=
  findOneAndUpdate (fun u => u.user_id == userId)
    (fun u => { u with total_bookings := u.total_bookings + 1, last_booking_at := some now })
    users

/-- The shared persistent state the booking routes act on. -/
structure Store where
  slots : List Slot
  users : List User
  providers : List Provider
deriving DecidableEq, Repr

/-- Response of `POST /query/book` (routes/query.js).  `ok` carries the
booking object's fields; `badRequest` is an HTTP 400 with the error
message. -/
inductive BookResponse where
  | ok (slot_id : String) (provider : String) (service : String)
       (date : String) (time : String) (status : SlotStatus)
  | badRequest (error : String)
deriving DecidableEq, Repr

/-- Response of `POST /query/cancel` (routes/query.js). -/
inductive CancelResponse where
  | ok (message : String)
  | badRequest (error : String)
deriving DecidableEq, Repr

/-- `router.post("/book")`: validate, atomically book, record the user's
booking statistics, and answer with the booking details.  The `populate`
of the provider reference is modelled by the lookup on `store.providers`. -/
def bookRoute (store : Store) (user_id slot_id : String) (notes : Option String)
    (now : Nat) : BookResponse × Store :=
  if user_id == "" || slot_id == "" then
    (BookResponse.badRequest "user_id and slot_id required", store)
  else
    let r := bookSlot store.slots slot_id user_id notes now
    match r.1 with
    | none =>
      (BookResponse.badRequest "Slot not available or already booked",
       { store with slots := r.2 })
    | some bookedSlot =>
      let ru := recordBooking store.users user_id now
      let providerName :=
        ((store.providers.find? (fun p => p.oid == bookedSlot.provider_id)).map
          Provider.name).getD "Unknown"
      (BookResponse.ok bookedSlot.slot_id providerName bookedSlot.service_name
         bookedSlot.date bookedSlot.time bookedSlot.status,
       { store with slots := r.2, users := ru.2 })

/-- `router.post("/cancel")`: validate, atomically cancel (only by the
booking user), and answer. -/
def cancelRoute (store : Store) (user_id slot_id : String) :
    CancelResponse × Store :=
  if user_id == "" || slot_id == "" then
    (CancelResponse.badRequest "user_id and slot_id required", store)
  else
    let r := cancelBooking store.slots slot_id user_id
    match r.1 with
    | none =>
      (CancelResponse.badRequest "Booking not found or cannot be cancelled",
       { store with slots := r.2 })
    | some _ =>
      (CancelResponse.ok "Booking cancelled successfully",
       { store with slots := r.2 })

/-- JS `text.toLowerCase()` on the basic latin range, implemented
structurally over the character list (so concrete inputs evaluate). -/
def strToLower (s : String) : String :=
  String.mk (s.data.map Char.toLower)

/-- Does `hay` start with `needle` (character lists)? -/
def charsMatchAt : List Char → List Char → Bool
  | _, [] => true
  | [], _ :: _ => false
  | a :: as, b :: bs => a == b && charsMatchAt as bs

/-- Does `hay` contain `needle` as a contiguous run (character lists)? -/
def charsContain : List Char → List Char → Bool
  | [], needle => needle.isEmpty
  | hay@(_ :: t), needle => charsMatchAt hay needle || charsContain t needle

/-- JS `hay.includes(needle)`: substring containment. -/
def strIncludes (hay needle : String) : Bool :=
  charsContain hay.toList needle.toList

/-- `detectUrgency` (services/urgency.js): keyword scan on the lowercased
text, high-urgency keywords checked before low-urgency ones. -/
def detectUrgency (queryText : String) : String :=
  let text := strToLower queryText
  if strIncludes text "urgent" || strIncludes text "abhi" ||
      strIncludes text "turant" || strIncludes text "immediately" then
    "high"
  else if strIncludes text "kal" || strIncludes text "tomorrow" ||
      strIncludes text "later" then
    "low"
  else
    "normal"

/-- The high-urgency keyword set actually checked by `detectUrgency`. -/
def highUrgencyKeywords : List String := ["urgent", "abhi", "turant", "immediately"]

/-- The low-urgency keyword set actually checked by `detectUrgency`. -/
def lowUrgencyKeywords : List String := ["kal", "tomorrow", "later"]

/-- A service document (models/service.js), restricted to the fields used
by rule-based matching. -/
structure ServiceDef where
  name : String
  synonyms : List String
  enabled : Bool
deriving DecidableEq, Repr

/-- `ServiceSchema.statics.getSynonymsMap`: enabled services with a
non-empty synonym list, keywords lowercased, in collection order. -/
def getSynonymsMap (services : List ServiceDef) : List (String × List String) :=
  (services.filter (fun s => s.enabled)).filterMap
    (fun svc =>
      if svc.synonyms.isEmpty then none
      else some (svc.name, svc.synonyms.map strToLower))

/-- `normalizeService` (services/entities.js): first service in the synonym
map one of whose keywords is a substring of the lowercased query. -/
def normalizeService (services : List ServiceDef) (queryText : String) : Option String :=
  let lowerQuery := strToLower queryText
  ((getSynonymsMap services).find?
    (fun e => e.2.any (fun w => strIncludes lowerQuery w))).map Prod.fst

/-- Outcome of the single HTTP exchange with the ML microservice:
either the response body, or a transport failure / timeout. -/
inductive MLOutcome where
  | success (predicted_service : Option String) (confidence : Option Rat)
  | failure
deriving DecidableEq, Repr

/-- Timeout configured on the axios call in `getIntentPrediction`
(services/intentModel.js): 5000 ms. -/
def ML_TIMEOUT_MS : Nat := 5000

/-- `getIntentPrediction` (services/intentModel.js): one HTTP POST with a
bounded timeout (`ML_TIMEOUT_MS`); any error is rethrown as the typed
`ML_SERVICE_UNAVAILABLE` condition.  No retry. -/
def getIntentPrediction (outcome : MLOutcome) :
    Except String (Option String × Option Rat) :=
  match outcome with
  | MLOutcome.success s c => Except.ok (s, c)
  | MLOutcome.failure => Except.error "ML_SERVICE_UNAVAILABLE"

/-- Result of the intent-resolution phase of `router.post("/")`:
a resolved service (with confidence and source), an HTTP 400, or an
HTTP 500. -/
inductive IntentOutcome where
  | resolved (service : String) (confidence : Rat) (source : String)
  | clientError (message : String)
  | serverError (message : String)
deriving DecidableEq, Repr

/-- Steps 2-3 of `router.post("/")` (routes/query.js): rule-based
detection, then at most one ML call whose failure is surfaced as a 500.
The second component counts how many times the classifier was invoked. -/
def resolveServicePhase (services : List ServiceDef) (query_text : String)
    (ml : MLOutcome) : IntentOutcome × Nat :=
  match normalizeService services query_text with
  | some s => (IntentOutcome.resolved s (95 / 100) "rule", 0)
  | none =>
    match getIntentPrediction ml with
    | Except.error _ => (IntentOutcome.serverError "ML prediction failed", 1)
    | Except.ok (predicted, conf) =>
      let confidence : Rat :=
        match conf with
        | some c => if c == 0 then 1 / 2 else c
        | none => 1 / 2
      match predicted with
      | none => (IntentOutcome.clientError "Could not detect service", 1)
      | some s => (IntentOutcome.resolved s confidence "ml", 1)

/-- `scoreProvider` (services/matcher.js).  `distance` is in meters when a
geo search produced one.  Note the JS `p.response_time_min || 60`: a zero
(or absent) response time falls back to 60 before the cap is applied. -/
def scoreProvider (p : Provider) (area : String) (distance : Option Rat) : Rat :=
  let s1 : Rat := if p.verified then 20 else 10
  let s2 := s1 + p.rating * 5
  let s3 := s2 + min (p.jobs_completed_30d : Rat) 20
  let s4 := s3 + (if p.available_now then 10 else 0)
  let s5 := s4 -
    (min (if p.response_time_min == 0 then (60 : Rat) else (p.response_time_min : Rat)) 60) / 6
  let s6 := s5 +
    (if area != "" && p.area != "" && (strToLower area == strToLower p.area) then 5 else 0)
  match distance with
  | some d => s6 + max 0 (15 - d / 1000)
  | none => s6

/-- Modelled from the claim's wording of the ranking formula (for the C5
comparison): verification baseline + rating x 5 + capped experience +
availability bonus - min(response_time_min, 60)/6 + case-insensitive area
bonus + geo proximity bonus. -/
def scoreProviderClaim (p : Provider) (area : String) (distance : Option Rat) : Rat :=
  (if p.verified then 20 else 10) + p.rating * 5 +
    min (p.jobs_completed_30d : Rat) 20 +
    (if p.available_now then 10 else 0) -
    (min (p.response_time_min : Rat) 60) / 6 +
    (if strToLower area == strToLower p.area then 5 else 0) +
    (match distance with
     | some d => max 0 (15 - d / 1000)
     | none => 0)

/-- The amended flat formula: as the claim's, except that a response time
of zero is replaced by 60 before the cap (the JS `|| 60` default), and the
area bonus additionally requires both area strings to be non-empty. -/
def scoreProviderAmended (p : Provider) (area : String) (distance : Option Rat) : Rat :=
  (if p.verified then 20 else 10) + p.rating * 5 +
    min (p.jobs_completed_30d : Rat) 20 +
    (if p.available_now then 10 else 0) -
    (min (if p.response_time_min = 0 then (60 : Rat) else (p.response_time_min : Rat)) 60) / 6 +
    (if area ≠ "" ∧ p.area ≠ "" ∧ strToLower area = strToLower p.area then 5 else 0) +
    (match distance with
     | some d => max 0 (15 - d / 1000)
     | none => 0)

/-- Stable insertion of a scored provider into a list sorted by descending
score: the element moves past every entry with a greater-or-equal score.
Models the JS `sort((a, b) => b._score - a._score)` (a stable sort). -/
def insertDesc (x : Provider × Rat) : List (Provider × Rat) → List (Provider × Rat)
  | [] => [x]
  | y :: ys => if x.2 ≤ y.2 then y :: insertDesc x ys else x :: y :: ys

/-- Stable sort by descending score (insertion sort). -/
def sortDesc : List (Provider × Rat) → List (Provider × Rat)
  | [] => []
  | x :: xs => insertDesc x (sortDesc xs)

/-- The ranking step of `matchProviders` (services/matcher.js): score every
candidate, sort by descending score, truncate to `limit`.  `dist` gives the
geo distance recorded on a candidate, when the search was geospatial. -/
def rankProviders (providers : List Provider) (area : String)
    (dist : Provider → Option Rat) (limit : Nat) : List (Provider × Rat) :=
  (sortDesc (providers.map (fun p => (p, scoreProvider p area (dist p))))).take limit

/-- Geo parameters of a match query. -/
structure GeoParams where
  lat : Rat
  lng : Rat
  radiusKm : Rat
deriving DecidableEq, Repr

/-- The criteria record passed to `matchProviders`. -/
structure MatchQuery where
  intent : String
  state : Option String
  city : Option String
  area : Option String
  geo : Option GeoParams
  limit : Nat
deriving DecidableEq, Repr

/-- What `matchProviders` returns to the orchestrator. -/
structure MatchResult where
  providers : List Provider
  searchMethod : String
deriving DecidableEq, Repr

/-- Step 4 of `router.post("/")` (routes/query.js): the initial matcher
call followed by the progressive fallback broadening.  The matcher itself
is abstracted as `M`; the transcription keeps the exact queries and labels
of the source (fallback stages drop `area` and `geo` as the source does). -/
def providerSearchPhase (M : MatchQuery → MatchResult) (service : String)
    (state city area : Option String) (geoParams : Option GeoParams) :
    List Provider × String :=
  let matchResult := M ⟨service, state, city, area, geoParams, 5⟩
  let providers := matchResult.providers
  let searchMethod := matchResult.searchMethod
  if providers.length == 0 then
    let step1 : List Provider × String :=
      match geoParams with
      | some _ =>
        let r := M ⟨service, state, city, none, none, 5⟩
        (r.providers, "fallback-no-geo")
      | none => (providers, searchMethod)
    let step2 : List Provider × String :=
      if step1.1.length == 0 && city.isSome then
        let r := M ⟨service, state, none, none, none, 5⟩
        (r.providers, "fallback-state-only")
      else step1
    if step2.1.length == 0 then
      let r := M ⟨service, none, none, none, none, 5⟩
      (r.providers, "fallback-service-only")
    else step2
  else (providers, searchMethod)

/-- Modelled from the claim: the fallback stages, in the fixed order
drop geo (when geo was supplied), drop city (when city was supplied),
drop state, each tagged with its label. -/
def fallbackStages (M : MatchQuery → MatchResult) (service : String)
    (state city : Option String) (geoParams : Option GeoParams) :
    List (String × List Provider) :=
  (if geoParams.isSome then
    [("fallback-no-geo", (M ⟨service, state, city, none, none, 5⟩).providers)]
   else []) ++
  (if city.isSome then
    [("fallback-state-only", (M ⟨service, state, none, none, none, 5⟩).providers)]
   else []) ++
  [("fallback-service-only", (M ⟨service, none, none, none, none, 5⟩).providers)]

/-- Modelled from the claim: the first stage producing a non-empty result
wins; when every stage is empty the last stage (service-only) is reported. -/
def firstNonEmptyStage : List (String × List Provider) → List Provider × String
  | [] => ([], "fallback-service-only")
  | (label, ps) :: rest =>
    if ps.length == 0 && rest.length != 0 then firstNonEmptyStage rest
    else (ps, label)

/-- The consistency invariant tying the redundant `available` flag to the
lifecycle status. -/
def slotInvariant (s : Slot) : Prop :=
  s.available = true ↔ s.status = SlotStatus.available

/-- A freshly created slot document (all schema defaults, no booking
metadata), used as concrete input by witnesses. -/
def sampleSlot : Slot :=
  ⟨"s1", "p1", "2026-01-01", "10:00", 60, "plumber", true, none, none, none,
   SlotStatus.available, 0⟩

/-- A sample user document used as concrete input by witnesses. -/
def sampleUser : User :=
  ⟨"u1", 3, 1, some 5, some 5⟩

/-- A sample provider document used as concrete input by witnesses. -/
def sampleProvider : Provider :=
  ⟨"p1", "P001", "Alpha Plumbing", "plumber", "123", 4, true, true, 10, 2, 500,
   "Indiranagar", "Bengaluru", "Karnataka"⟩

/-! ## Generic facts about the conditional-update primitive -/

theorem findOneAndUpdate_none_eq {α : Type} (cond : α → Bool) (upd : α → α)
    (l : List α) (h : (findOneAndUpdate cond upd l).1 = none) :
    (findOneAndUpdate cond upd l).2 = l := by
  induction l with
  | nil => rfl
  | cons d rest ih =>
    by_cases hc : cond d = true
    · simp [findOneAndUpdate, hc] at h
    · simp [findOneAndUpdate, hc] at h ⊢
      exact ih h

theorem findOneAndUpdate_mem {α : Type} (cond : α → Bool) (upd : α → α)
    (l : List α) (x : α) (hx : x ∈ (findOneAndUpdate cond upd l).2) :
    x ∈ l ∨ ∃ d ∈ l, cond d = true ∧ x = upd d := by
  induction l with
  | nil => simp [findOneAndUpdate] at hx
  | cons d rest ih =>
    by_cases hc : cond d = true
    · simp [findOneAndUpdate, hc] at hx
      rcases hx with hx | hx
      · exact Or.inr ⟨d, by simp, hc, hx⟩
      · exact Or.inl (List.mem_cons_of_mem _ hx)
    · simp [findOneAndUpdate, hc] at hx
      rcases hx with hx | hx
      · exact Or.inl (by simp [hx])
      · rcases ih hx with h | ⟨e, he, hce, hxe⟩
        · exact Or.inl (List.mem_cons_of_mem _ h)
        · exact Or.inr ⟨e, List.mem_cons_of_mem _ he, hce, hxe⟩

theorem findOneAndUpdate_some {α : Type} (cond : α → Bool) (upd : α → α)
    (l : List α) (b : α) (h : (findOneAndUpdate cond upd l).1 = some b) :
    ∃ d ∈ l, cond d = true ∧ b = upd d := by
  induction l with
  | nil => simp [findOneAndUpdate] at h
  | cons d rest ih =>
    by_cases hc : cond d = true
    · simp [findOneAndUpdate, hc] at h
      exact ⟨d, by simp, hc, h.symm⟩
    · simp [findOneAndUpdate, hc] at h
      rcases ih h with ⟨e, he, hce, hbe⟩
      exact ⟨e, List.mem_cons_of_mem _ he, hce, hbe⟩

/-- C10: every Booking Ledger operation preserves the consistency of the
slot's redundant availability flag — on a collection of slots each
satisfying `available = (status == 'available')`, both `bookSlot` and
`cancelBooking` leave every slot satisfying it, whether they succeed or
reject; a rejected operation writes nothing; a successful `bookSlot` only
matched a slot with `available = true` and status `available` and wrote
`available = false` with status `booked`; a successful `cancelBooking`
wrote `available = true` with status `available`. -/
theorem bookingLedger_preserves_availability_invariant
    (db : List Slot) (slotId userId : String) (notes : Option String) (now : Nat)
    (hdb : ∀ s ∈ db, slotInvariant s) :
    (∀ s ∈ (bookSlot db slotId userId notes now).2, slotInvariant s) ∧
    ((bookSlot db slotId userId notes now).1 = none →
      (bookSlot db slotId userId notes now).2 = db) ∧
    (∀ b, (bookSlot db slotId userId notes now).1 = some b →
      ∃ d ∈ db, d.available = true ∧ d.status = SlotStatus.available ∧
        b.available = false ∧ b.status = SlotStatus.booked) ∧
    (∀ s ∈ (cancelBooking db slotId userId).2, slotInvariant s) ∧
    ((cancelBooking db slotId userId).1 = none →
      (cancelBooking db slotId userId).2 = db) ∧
    (∀ c, (cancelBooking db slotId userId).1 = some c →
      c.available = true ∧ c.status = SlotStatus.available) := by
  refine ⟨?_, ?_, ?_, ?_, ?_, ?_⟩
  · intro s hs
    rcases findOneAndUpdate_mem _ _ _ _ hs with h | ⟨d, _, _, hsd⟩
    · exact hdb s h
    · subst hsd
      simp [bookUpdate, slotInvariant]
  · exact findOneAndUpdate_none_eq _ _ _
  · intro b hb
    rcases findOneAndUpdate_some _ _ _ _ hb with ⟨d, hd, hcd, hbd⟩
    simp only [bookCond, Bool.and_eq_true, beq_iff_eq] at hcd
    obtain ⟨⟨_, hav⟩, hst⟩ := hcd
    refine ⟨d, hd, hav, hst, ?_, ?_⟩
    · subst hbd; simp [bookUpdate]
    · subst hbd; simp [bookUpdate]
  · intro s hs
    rcases findOneAndUpdate_mem _ _ _ _ hs with h | ⟨d, _, _, hsd⟩
    · exact hdb s h
    · subst hsd
      simp [cancelUpdate, slotInvariant]
  · exact findOneAndUpdate_none_eq _ _ _
  · intro c hc
    rcases findOneAndUpdate_some _ _ _ _ hc with ⟨d, _, _, hcd⟩
    subst hcd
    simp [cancelUpdate]

/-- Witness for C10 at a concrete store: booking the sample available slot
leaves the (updated) slot satisfying the availability invariant. -/
theorem bookingLedger_preserves_availability_invariant_witness :
    slotInvariant (bookUpdate "u1" none 7 sampleSlot) := by
  have h := bookingLedger_preserves_availability_invariant
    [sampleSlot] "s1" "u1" none 7
    (by intro s hs; simp at hs; subst hs; simp [slotInvariant, sampleSlot])
  exact h.1 (bookUpdate "u1" none 7 sampleSlot)
    (by simp [bookSlot, findOneAndUpdate, bookCond, sampleSlot])

/-- C6 counterexample: the claim's keyword sets do not match the code.
`detectUrgency "emergency"` is `"normal"`, not the claimed `"high"`
('emergency' is not in the code's high-urgency set), and
`detectUrgency "whenever"` is `"normal"`, not the claimed `"low"`
('whenever' is not in the code's low-urgency set). -/
theorem detectUrgency_counterexample :
    detectUrgency "emergency" = "normal" ∧ detectUrgency "emergency" ≠ "high" ∧
    detectUrgency "whenever" = "normal" ∧ detectUrgency "whenever" ≠ "low" := by
  refine ⟨by decide, by decide, by decide, by decide⟩

/-- C6 (amended): `detectUrgency` lowercases the text and returns `"high"`
exactly when it contains a keyword of the fixed high-urgency set
{urgent, abhi, turant, immediately} (two non-English equivalents, but not
'emergency'); otherwise `"low"` exactly when it contains a keyword of the
low-urgency set {kal, tomorrow, later} (not 'whenever'); otherwise
`"normal"`.  High-urgency keywords take precedence when both appear. -/
theorem detectUrgency_amended (text : String) :
    (detectUrgency text = "high" ↔
      highUrgencyKeywords.any (fun k => strIncludes (strToLower text) k) = true) ∧
    (detectUrgency text = "low" ↔
      (highUrgencyKeywords.any (fun k => strIncludes (strToLower text) k) = false ∧
       lowUrgencyKeywords.any (fun k => strIncludes (strToLower text) k) = true)) ∧
    (detectUrgency text = "normal" ↔
      (highUrgencyKeywords.any (fun k => strIncludes (strToLower text) k) = false ∧
       lowUrgencyKeywords.any (fun k => strIncludes (strToLower text) k) = false)) := by
  simp only [highUrgencyKeywords, lowUrgencyKeywords, List.any_cons, List.any_nil,
    Bool.or_false, detectUrgency, Bool.or_assoc]
  cases h1 : (strIncludes (strToLower text) "urgent" || (strIncludes (strToLower text) "abhi" ||
      (strIncludes (strToLower text) "turant" || strIncludes (strToLower text) "immediately"))) <;>
  cases h2 : (strIncludes (strToLower text) "kal" || (strIncludes (strToLower text) "tomorrow" ||
      strIncludes (strToLower text) "later")) <;>
  simp [h1, h2]

/-- C5 counterexample: a provider with `response_time_min = 0` and empty
area fields (rating 4, verified, available now).  The code's
`p.response_time_min || 60` turns the zero into a full penalty of 10, and
the empty-against-empty area comparison earns no bonus, so `scoreProvider`
yields 40 while the claim's formula yields 55. -/
theorem scoreProvider_formula_counterexample :
    let p : Provider := ⟨"p1", "P001", "Alpha", "plumber", "c", 4, true, true, 0, 0, 100, "", "", ""⟩
    0 ≤ p.rating ∧ p.rating ≤ 5 ∧
    scoreProvider p "" none = 40 ∧ scoreProviderClaim p "" none = 55 ∧
    scoreProvider p "" none ≠ scoreProviderClaim p "" none := by
  refine ⟨by decide, by decide, ?_, ?_, ?_⟩
  · norm_num [scoreProvider, strToLower]
  · norm_num [scoreProviderClaim, strToLower]
  · norm_num [scoreProvider, scoreProviderClaim, strToLower]

/-- C5 (amended): for every provider (rating in [0,5]), requester area and
optional distance, `scoreProvider` equals the claim's additive formula with
two changes forced by the code: a response time of zero is replaced by 60
before the cap (the JS `|| 60` absent-value default), and the +5 area bonus
additionally requires both area strings to be non-empty. -/
theorem scoreProvider_amended_eq (p : Provider) (area : String) (distance : Option Rat)
    (_h0 : 0 ≤ p.rating) (_h5 : p.rating ≤ 5) :
    scoreProvider p area distance = scoreProviderAmended p area distance := by
  cases distance <;>
  simp only [scoreProvider, scoreProviderAmended, Bool.and_eq_true, bne_iff_ne,
    beq_iff_eq, and_assoc, ne_eq, decide_eq_true_eq, add_zero]

/-- Witness for C5's amended theorem at a concrete provider and distance. -/
theorem scoreProvider_amended_eq_witness :
    (0 ≤ sampleProvider.rating ∧ sampleProvider.rating ≤ 5) ∧
    scoreProvider sampleProvider "Indiranagar" (some 2500) =
      scoreProviderAmended sampleProvider "Indiranagar" (some 2500) :=
  ⟨⟨by decide, by decide⟩,
   scoreProvider_amended_eq sampleProvider "Indiranagar" (some 2500) (by decide) (by decide)⟩

theorem insertDesc_mem (x : Provider × Rat) (l : List (Provider × Rat)) (z : Provider × Rat)
    (hz : z ∈ insertDesc x l) : z = x ∨ z ∈ l := by
  induction l with
  | nil => simp [insertDesc] at hz; exact Or.inl hz
  | cons y ys ih =>
    by_cases h : x.2 ≤ y.2
    · simp only [insertDesc, if_pos h, List.mem_cons] at hz
      rcases hz with hz | hz
      · exact Or.inr (by simp [hz])
      · rcases ih hz with h1 | h1
        · exact Or.inl h1
        · exact Or.inr (List.mem_cons_of_mem _ h1)
    · simp only [insertDesc, if_neg h, List.mem_cons] at hz
      rcases hz with hz | hz | hz
      · exact Or.inl hz
      · exact Or.inr (by simp [hz])
      · exact Or.inr (List.mem_cons_of_mem _ hz)

theorem insertDesc_pairwise (x : Provider × Rat) (l : List (Provider × Rat))
    (hl : l.Pairwise (fun a b => b.2 ≤ a.2)) :
    (insertDesc x l).Pairwise (fun a b => b.2 ≤ a.2) := by
  induction l with
  | nil => simp [insertDesc]
  | cons y ys ih =>
    rcases List.pairwise_cons.mp hl with ⟨hy, hys⟩
    by_cases h : x.2 ≤ y.2
    · simp only [insertDesc, if_pos h]
      refine List.pairwise_cons.mpr ⟨?_, ih hys⟩
      intro z hz
      rcases insertDesc_mem x ys z hz with rfl | hzys
      · exact h
      · exact hy z hzys
    · push_neg at h
      simp only [insertDesc, if_neg (not_le.mpr h)]
      refine List.pairwise_cons.mpr ⟨?_, hl⟩
      intro z hz
      rcases List.mem_cons.mp hz with rfl | hzys
      · exact le_of_lt h
      · exact le_trans (hy z hzys) (le_of_lt h)

theorem sortDesc_pairwise (l : List (Provider × Rat)) :
    (sortDesc l).Pairwise (fun a b => b.2 ≤ a.2) := by
  induction l with
  | nil => simp [sortDesc]
  | cons x xs ih => exact insertDesc_pairwise x _ ih

/-- C9: `scoreProvider` is monotone in verification and in rating — for
two providers identical in every other field, the verified (resp. the
higher-rated) one scores at least as high, for every requester area and
optional distance; and in the matcher's descending sort an entry with a
strictly greater score always sits at a strictly earlier position, so the
verified/higher-rated provider never ranks below its counterpart. -/
theorem ranking_monotonic_in_rating_and_verification :
    (∀ (p : Provider) (a : String) (d : Option Rat),
      scoreProvider { p with verified := false } a d ≤
        scoreProvider { p with verified := true } a d) ∧
    (∀ (p : Provider) (a : String) (d : Option Rat) (r1 r2 : Rat), r2 ≤ r1 →
      scoreProvider { p with rating := r2 } a d ≤
        scoreProvider { p with rating := r1 } a d) ∧
    (∀ (l : List (Provider × Rat)) (i j : Fin (sortDesc l).length),
      ((sortDesc l).get j).2 < ((sortDesc l).get i).2 → i < j) := by
  refine ⟨?_, ?_, ?_⟩
  · intro p a d
    cases d <;> simp [scoreProvider] <;> linarith
  · intro p a d r1 r2 hr
    cases d <;> simp [scoreProvider] <;> linarith
  · intro l i j hlt
    rcases lt_trichotomy i j with h | h | h
    · exact h
    · exfalso; subst h; exact lt_irrefl _ hlt
    · exfalso
      have := (List.pairwise_iff_get.mp (sortDesc_pairwise l)) j i h
      exact absurd hlt (not_lt.mpr this)

/-- Witness for C9 at concrete providers, ratings and a concrete sorted
list. -/
theorem ranking_monotonic_witness :
    (scoreProvider { sampleProvider with verified := false } "x" none ≤
      scoreProvider { sampleProvider with verified := true } "x" none) ∧
    ((0 : Rat) ≤ 5 ∧
      scoreProvider { sampleProvider with rating := 0 } "x" none ≤
        scoreProvider { sampleProvider with rating := 5 } "x" none) ∧
    (((sortDesc [(sampleProvider, 1), (sampleProvider, 2)]).get ⟨1, by decide⟩).2 <
        ((sortDesc [(sampleProvider, 1), (sampleProvider, 2)]).get ⟨0, by decide⟩).2 ∧
      (⟨0, by decide⟩ : Fin (sortDesc [(sampleProvider, 1), (sampleProvider, 2)]).length) <
        ⟨1, by decide⟩) :=
  ⟨ranking_monotonic_in_rating_and_verification.1 sampleProvider "x" none,
   ⟨by decide, ranking_monotonic_in_rating_and_verification.2.1 sampleProvider "x" none 5 0 (by decide)⟩,
   ⟨by decide, ranking_monotonic_in_rating_and_verification.2.2
      [(sampleProvider, 1), (sampleProvider, 2)] ⟨0, by decide⟩ ⟨1, by decide⟩ (by decide)⟩⟩

/-- C8: when the rule phase detects no service, the external classifier is
invoked exactly once (no internal retry), with the configured 5000 ms
timeout; a timeout or transport failure surfaces as the HTTP 500
"ML prediction failed" response, which is distinguishable from the 400
"Could not detect service" (no-match) outcome. -/
theorem classifier_unavailable_surfaced (services : List ServiceDef) (text : String)
    (ml : MLOutcome) (h : normalizeService services text = none) :
    (resolveServicePhase services text ml).2 = 1 ∧
    (ml = MLOutcome.failure →
      (resolveServicePhase services text ml).1 =
        IntentOutcome.serverError "ML prediction failed" ∧
      (resolveServicePhase services text ml).1 ≠
        IntentOutcome.clientError "Could not detect service") ∧
    ML_TIMEOUT_MS = 5000 := by
  refine ⟨?_, ?_, rfl⟩
  · cases ml with
    | failure => simp [resolveServicePhase, h, getIntentPrediction]
    | success ps conf =>
      cases ps <;> cases conf <;>
        simp [resolveServicePhase, h, getIntentPrediction]
  · intro hml
    subst hml
    simp [resolveServicePhase, h, getIntentPrediction]

/-- Witness for C8: empty catalog (so the rule phase finds nothing) and a
failing classifier exchange. -/
theorem classifier_unavailable_witness :
    normalizeService [] "hello" = none ∧
    (resolveServicePhase [] "hello" MLOutcome.failure).1 =
      IntentOutcome.serverError "ML prediction failed" :=
  ⟨rfl, ((classifier_unavailable_surfaced [] "hello" MLOutcome.failure rfl).2.1 rfl).1⟩

theorem find?_first {α : Type} (p : α → Bool) (l : List α)
    (hx : ∃ x ∈ l, p x = true) :
    ∃ pre e post, l = pre ++ e :: post ∧ l.find? p = some e ∧ p e = true ∧
      ∀ e' ∈ pre, p e' = false := by
  induction l with
  | nil => simp at hx
  | cons a as ih =>
    by_cases ha : p a = true
    · exact ⟨[], a, as, by simp, by simp [List.find?, ha], ha, by simp⟩
    · have ha' : p a = false := by simpa using ha
      have hx' : ∃ x ∈ as, p x = true := by
        rcases hx with ⟨x, hxl, hpx⟩
        rcases List.mem_cons.mp hxl with rfl | hmem
        · exact absurd hpx ha
        · exact ⟨x, hmem, hpx⟩
      rcases ih hx' with ⟨pre, e, post, hsplit, hfind, hpe, hpre⟩
      refine ⟨a :: pre, e, post, by simp [hsplit], ?_, hpe, ?_⟩
      · simp [List.find?_cons, ha', hfind]
      · intro e' he'
        rcases List.mem_cons.mp he' with rfl | hm
        · exact ha'
        · exact hpre e' hm

/-- C7: when the lowercased query text contains a configured keyword of
some enabled service, the rule phase resolves — for every classifier
behaviour (the classifier is never consulted: 0 calls) — to a service `S`
with confidence 0.95 and source "rule", where `S` is the first entry of
the synonym map (catalog insertion order) with a matching keyword, every
earlier entry having no matching keyword; and `S` is always the name of an
enabled catalog service, so disabled services never match.  The `Nodup`
hypothesis reflects that the JS synonym map is an object keyed by service
name. -/
theorem rule_based_intent_resolution (services : List ServiceDef) (text : String)
    (_hnd : (services.map ServiceDef.name).Nodup)
    (h : ∃ svc ∈ services, svc.enabled = true ∧
      ∃ w ∈ svc.synonyms, strIncludes (strToLower text) (strToLower w) = true) :
    ∃ S : String,
      (∀ ml : MLOutcome,
        resolveServicePhase services text ml =
          (IntentOutcome.resolved S (95 / 100) "rule", 0)) ∧
      (∃ pre e post, getSynonymsMap services = pre ++ e :: post ∧ e.1 = S ∧
        e.2.any (fun w => strIncludes (strToLower text) w) = true ∧
        ∀ e' ∈ pre, e'.2.any (fun w => strIncludes (strToLower text) w) = false) ∧
      (∃ svc ∈ services, svc.enabled = true ∧ svc.name = S) := by
  rcases h with ⟨svc, hsvc, hen, w, hw, hmatch⟩
  have hne : svc.synonyms.isEmpty = false := by
    cases hsyn : svc.synonyms with
    | nil => rw [hsyn] at hw; simp at hw
    | cons _ _ => simp
  have hmem : (svc.name, svc.synonyms.map strToLower) ∈ getSynonymsMap services := by
    unfold getSynonymsMap
    refine List.mem_filterMap.mpr ⟨svc, List.mem_filter.mpr ⟨hsvc, hen⟩, ?_⟩
    simp [hne]
  have hany : (svc.synonyms.map strToLower).any
      (fun w' => strIncludes (strToLower text) w') = true := by
    simp only [List.any_eq_true]
    exact ⟨strToLower w, List.mem_map.mpr ⟨w, hw, rfl⟩, hmatch⟩
  have hex : ∃ e ∈ getSynonymsMap services,
      (fun (e : String × List String) =>
        e.2.any (fun w' => strIncludes (strToLower text) w')) e = true :=
    ⟨(svc.name, svc.synonyms.map strToLower), hmem, hany⟩
  rcases find?_first _ _ hex with ⟨pre, e, post, hsplit, hfind, hpe, hpre⟩
  have hns : normalizeService services text = some e.1 := by
    simp [normalizeService, hfind]
  refine ⟨e.1, ?_, ⟨pre, e, post, hsplit, rfl, hpe, hpre⟩, ?_⟩
  · intro ml
    simp [resolveServicePhase, hns]
  · have he : e ∈ getSynonymsMap services := by
      rw [hsplit]; simp
    unfold getSynonymsMap at he
    rcases List.mem_filterMap.mp he with ⟨svc2, hsvc2, hfe⟩
    rcases List.mem_filter.mp hsvc2 with ⟨hmem2, hen2⟩
    by_cases hempty : svc2.synonyms.isEmpty
    · simp [hempty] at hfe
    · simp only [Bool.not_eq_true] at hempty
      simp [hempty] at hfe
      exact ⟨svc2, hmem2, hen2, by rw [← hfe]⟩

/-- Witness for C7: a one-service catalog whose keyword "pipe" occurs
(case-insensitively) in the query. -/
theorem rule_based_intent_resolution_witness :
    ∃ S : String, ∀ ml : MLOutcome,
      resolveServicePhase [⟨"plumber", ["pipe", "tap"], true⟩] "My PIPE leaks" ml =
        (IntentOutcome.resolved S (95 / 100) "rule", 0) := by
  rcases rule_based_intent_resolution [⟨"plumber", ["pipe", "tap"], true⟩]
      "My PIPE leaks" (by decide)
      ⟨⟨"plumber", ["pipe", "tap"], true⟩, by simp, rfl, "pipe", by simp, by decide⟩
    with ⟨S, h1, _, _⟩
  exact ⟨S, h1⟩

/-- C4: for every matcher behaviour `M` and every /query request whose
initial matcher invocation yields zero providers, the orchestrator's
broadening equals the first non-empty result among the stages drop-geo
(when geo was supplied), drop-city (when city was supplied), then
drop-state (service only), in that fixed order, labelled
'fallback-no-geo' / 'fallback-state-only' / 'fallback-service-only'
respectively; when every stage is empty, the final (empty) stage's label
'fallback-service-only' is reported. -/
theorem query_fallback_broadening (M : MatchQuery → MatchResult) (service : String)
    (state city area : Option String) (geoParams : Option GeoParams)
    (h : (M ⟨service, state, city, area, geoParams, 5⟩).providers = []) :
    providerSearchPhase M service state city area geoParams =
      firstNonEmptyStage (fallbackStages M service state city geoParams) := by
  cases geoParams with
  | none =>
    cases city with
    | none =>
      simp [providerSearchPhase, fallbackStages, firstNonEmptyStage, h]
    | some c =>
      cases hs : (M ⟨service, state, none, none, none, 5⟩).providers <;>
        simp [providerSearchPhase, fallbackStages, firstNonEmptyStage, h, hs]
  | some g =>
    cases city with
    | none =>
      cases hg : (M ⟨service, state, none, none, none, 5⟩).providers <;>
        simp [providerSearchPhase, fallbackStages, firstNonEmptyStage, h, hg]
    | some c =>
      cases hg : (M ⟨service, state, some c, none, none, 5⟩).providers <;>
      cases hs : (M ⟨service, state, none, none, none, 5⟩).providers <;>
        simp [providerSearchPhase, fallbackStages, firstNonEmptyStage, h, hg, hs]

/-- Witness for C4: a matcher that only finds providers for the state-only
query, on a request supplying geo and city whose initial match is empty. -/
theorem query_fallback_broadening_witness :
    let M : MatchQuery → MatchResult := fun q =>
      if q.city.isNone && q.geo.isNone && q.state.isSome then
        ⟨[sampleProvider], "standard"⟩
      else ⟨[], "geo"⟩
    (M ⟨"plumber", some "KA", some "BLR", none, some ⟨1, 2, 10⟩, 5⟩).providers = [] ∧
    providerSearchPhase M "plumber" (some "KA") (some "BLR") none (some ⟨1, 2, 10⟩) =
      firstNonEmptyStage
        (fallbackStages M "plumber" (some "KA") (some "BLR") (some ⟨1, 2, 10⟩)) := by
  exact ⟨rfl, query_fallback_broadening _ _ _ _ _ _ rfl⟩

/-- C2: cancellation succeeds if and only if the slot has the requested
id, is currently `booked`, and `booked_by` equals the requesting user; on
success the slot returns to `available` with all booking metadata cleared;
on failure (any part of the dual condition violated) the route answers
HTTP 400 and the store is unchanged; in particular a cancel by one user on
a slot booked by another always rejects and leaves state unchanged. -/
theorem cancel_dual_condition (s : Slot) (u : User) (provs : List Provider)
    (uid sid : String) (h1 : uid ≠ "") (h2 : sid ≠ "") :
    ((s.slot_id = sid ∧ s.booked_by = some uid ∧ s.status = SlotStatus.booked) →
      cancelRoute ⟨[s], [u], provs⟩ uid sid =
        (CancelResponse.ok "Booking cancelled successfully",
         ⟨[{ s with
              available := true, booked_by := none, booked_at := none,
              booking_notes := none, status := SlotStatus.available }],
          [u], provs⟩)) ∧
    (¬(s.slot_id = sid ∧ s.booked_by = some uid ∧ s.status = SlotStatus.booked) →
      cancelRoute ⟨[s], [u], provs⟩ uid sid =
        (CancelResponse.badRequest "Booking not found or cannot be cancelled",
         ⟨[s], [u], provs⟩)) ∧
    (∀ other : String, s.booked_by = some other → other ≠ uid →
      cancelRoute ⟨[s], [u], provs⟩ uid sid =
        (CancelResponse.badRequest "Booking not found or cannot be cancelled",
         ⟨[s], [u], provs⟩)) := by
  refine ⟨?_, ?_, ?_⟩
  · rintro ⟨hid, hby, hst⟩
    simp [cancelRoute, cancelBooking, findOneAndUpdate, cancelCond, cancelUpdate,
      hid, hby, hst, h1, h2]
  · intro hcond
    have hc : cancelCond sid uid s = false := by
      simp only [cancelCond, Bool.and_eq_true, beq_iff_eq, Bool.eq_false_iff, ne_eq]
      intro hcc
      exact hcond ⟨hcc.1.1, hcc.1.2, hcc.2⟩
    simp [cancelRoute, cancelBooking, findOneAndUpdate, hc, h1, h2]
  · intro other hother hne
    have hcond : ¬(s.slot_id = sid ∧ s.booked_by = some uid ∧ s.status = SlotStatus.booked) := by
      rintro ⟨-, hby, -⟩
      rw [hother] at hby
      exact hne (Option.some.inj hby)
    have hc : cancelCond sid uid s = false := by
      simp only [cancelCond, Bool.and_eq_true, beq_iff_eq, Bool.eq_false_iff, ne_eq]
      intro hcc
      exact hcond ⟨hcc.1.1, hcc.1.2, hcc.2⟩
    simp [cancelRoute, cancelBooking, findOneAndUpdate, hc, h1, h2]

/-- Witness for C2: userA attempting to cancel a slot booked by userB is
rejected and the store is unchanged. -/
theorem cancel_dual_condition_witness :
    let s : Slot := ⟨"s1", "p1", "2026-01-01", "10:00", 60, "plumber", false,
      some "userB", some 3, none, SlotStatus.booked, 0⟩
    ("userA" : String) ≠ "" ∧ ("s1" : String) ≠ "" ∧
    cancelRoute ⟨[s], [sampleUser], []⟩ "userA" "s1" =
      (CancelResponse.badRequest "Booking not found or cannot be cancelled",
       ⟨[s], [sampleUser], []⟩) := by
  refine ⟨by decide, by decide, ?_⟩
  exact (cancel_dual_condition _ sampleUser [] "userA" "s1" (by decide) (by decide)).2.2
    "userB" rfl (by decide)

/-- C1 (amended): booking succeeds if and only if the slot has the
requested id, `available = true` AND status `available`; on success it
sets status `booked`, records `booked_by`, `booked_at` and
`booking_notes`, answers with the updated slot's details (provider name
resolved from the provider collection), and increments the requesting
user's `total_bookings`; on failure the route answers HTTP 400 and the
store is unchanged. -/
theorem book_conditional_update (s : Slot) (u : User) (provs : List Provider)
    (uid sid : String) (notes : Option String) (now : Nat)
    (h1 : uid ≠ "") (h2 : sid ≠ "") (hu : u.user_id = uid) :
    ((s.slot_id = sid ∧ s.available = true ∧ s.status = SlotStatus.available) →
      bookRoute ⟨[s], [u], provs⟩ uid sid notes now =
        (BookResponse.ok s.slot_id
           (((provs.find? (fun p => p.oid == s.provider_id)).map Provider.name).getD "Unknown")
           s.service_name s.date s.time SlotStatus.booked,
         ⟨[{ s with
              available := false, booked_by := some uid, booked_at := some now,
              booking_notes := notes, status := SlotStatus.booked }],
          [{ u with
              total_bookings := u.total_bookings + 1, last_booking_at := some now }],
          provs⟩)) ∧
    (¬(s.slot_id = sid ∧ s.available = true ∧ s.status = SlotStatus.available) →
      bookRoute ⟨[s], [u], provs⟩ uid sid notes now =
        (BookResponse.badRequest "Slot not available or already booked",
         ⟨[s], [u], provs⟩)) := by
  constructor
  · rintro ⟨hid, hav, hst⟩
    have hbc : bookCond sid s = true := by
      simp [bookCond, hid, hav, hst]
    simp [bookRoute, bookSlot, recordBooking, findOneAndUpdate, bookUpdate, hbc, h1, h2, hu]
  · intro hcond
    have hbc : bookCond sid s = false := by
      simp only [bookCond, Bool.and_eq_true, beq_iff_eq, Bool.eq_false_iff, ne_eq]
      intro hcc
      exact hcond ⟨hcc.1.1, hcc.1.2, hcc.2⟩
    simp [bookRoute, bookSlot, findOneAndUpdate, hbc, h1, h2]

/-- Witness for C1's amended theorem: booking the sample available slot
succeeds, updates the slot and bumps the user's booking counter. -/
theorem book_conditional_update_witness :
    (sampleSlot.slot_id = "s1" ∧ sampleSlot.available = true ∧
      sampleSlot.status = SlotStatus.available) ∧
    bookRoute ⟨[sampleSlot], [sampleUser], []⟩ "u1" "s1" none 7 =
      (BookResponse.ok sampleSlot.slot_id
         (((([] : List Provider).find? (fun p => p.oid == sampleSlot.provider_id)).map
           Provider.name).getD "Unknown")
         sampleSlot.service_name sampleSlot.date sampleSlot.time SlotStatus.booked,
       ⟨[{ sampleSlot with
            available := false, booked_by := some "u1", booked_at := some 7,
            booking_notes := none, status := SlotStatus.booked }],
        [{ sampleUser with
            total_bookings := sampleUser.total_bookings + 1, last_booking_at := some 7 }],
        []⟩) :=
  ⟨⟨rfl, rfl, rfl⟩,
   (book_conditional_update sampleSlot sampleUser [] "u1" "s1" none 7
      (by decide) (by decide) rfl).1 ⟨rfl, rfl, rfl⟩⟩

/-- C1 counterexample: a slot whose `status` is `'available'` but whose
redundant `available` flag is `false` is rejected by the book route (the
code's condition also requires `available: true`), refuting "succeeds if
and only if the slot currently has status 'available'". -/
theorem book_status_only_counterexample :
    let s : Slot := ⟨"s1", "p1", "2026-01-01", "10:00", 60, "plumber", false, none, none, none,
      SlotStatus.available, 0⟩
    s.status = SlotStatus.available ∧
    (bookRoute ⟨[s], [sampleUser], []⟩ "u1" "s1" none 7).1 =
      BookResponse.badRequest "Slot not available or already booked" ∧
    (bookRoute ⟨[s], [sampleUser], []⟩ "u1" "s1" none 7).2 = ⟨[s], [sampleUser], []⟩ :=
  ⟨rfl, rfl, rfl⟩

/-- C3 (amended): for every slot in the fresh available state
(`available = true`, status `available`, no booking metadata recorded),
booking succeeds and a subsequent cancellation by the same user succeeds
and returns the slot record to exactly its pre-booking state. -/
theorem book_cancel_roundtrip (s : Slot) (uid : String) (notes : Option String) (now : Nat)
    (hav : s.available = true) (hst : s.status = SlotStatus.available)
    (hby : s.booked_by = none) (hat : s.booked_at = none) (hnt : s.booking_notes = none) :
    (bookSlot [s] s.slot_id uid notes now).1 =
      some { s with
              available := false, booked_by := some uid, booked_at := some now,
              booking_notes := notes, status := SlotStatus.booked } ∧
    cancelBooking (bookSlot [s] s.slot_id uid notes now).2 s.slot_id uid = (some s, [s]) := by
  obtain ⟨sid', pid', d', t', dur', sn', av', bb', ba', bn', st', ca'⟩ := s
  simp only at hav hst hby hat hnt
  subst hav hst hby hat hnt
  constructor
  · simp [bookSlot, findOneAndUpdate, bookCond, bookUpdate]
  · simp [bookSlot, findOneAndUpdate, bookCond, bookUpdate,
      cancelBooking, cancelCond, cancelUpdate]

/-- Witness for C3's amended theorem on the sample fresh slot. -/
theorem book_cancel_roundtrip_witness :
    (sampleSlot.available = true ∧ sampleSlot.status = SlotStatus.available ∧
      sampleSlot.booked_by = none ∧ sampleSlot.booked_at = none ∧
      sampleSlot.booking_notes = none) ∧
    cancelBooking (bookSlot [sampleSlot] sampleSlot.slot_id "u1" (some "call") 7).2
      sampleSlot.slot_id "u1" = (some sampleSlot, [sampleSlot]) :=
  ⟨⟨rfl, rfl, rfl, rfl, rfl⟩,
   (book_cancel_roundtrip sampleSlot "u1" (some "call") 7 rfl rfl rfl rfl rfl).2⟩

/-- C3 counterexample: a slot in status `'available'` (and bookable) that
carries stale booking metadata (`booked_at = some 5`).  Book-then-cancel
succeeds but the resulting record has `booked_at = none ≠ some 5`, so it is
not byte-for-byte equal to its pre-booking state, and `booked_at` is not
the status field. -/
theorem book_cancel_roundtrip_counterexample :
    let s : Slot := ⟨"s1", "p1", "2026-01-01", "10:00", 60, "plumber", true, none, some 5, none,
      SlotStatus.available, 0⟩
    s.status = SlotStatus.available ∧ s.available = true ∧
    (bookSlot [s] "s1" "u1" none 7).1.isSome = true ∧
    ((cancelBooking (bookSlot [s] "s1" "u1" none 7).2 "s1" "u1").1.map Slot.booked_at) =
      some none ∧
    s.booked_at = some 5 ∧
    (cancelBooking (bookSlot [s] "s1" "u1" none 7).2 "s1" "u1").1 ≠ some s :=
  ⟨rfl, rfl, rfl, rfl, rfl, by decide⟩

end Keazy
